import Mathlib

/-!
Verification of the ETL staging pipeline in `cli_sql_etl.py`.

The data model is a shallow embedding of a pandas DataFrame as read from a
comma-separated staged file: an ordered list of column names and an ordered
list of rows, each row a list of cells.  A cell is either a value (modelled
as the string that appears in the staged file) or a null (pandas NaN),
modelled as `Option String` with `none` for null.

Staged files on disk are modelled by an association list from path to the
tabular content stored there; a write shadows earlier entries, which models
unconditional overwrite.  Commands that can crash (uncaught Python
exceptions) are modelled with `Except`: an `Except.error` result means the
process aborted before reaching its write, leaving the disk unchanged.
-/

/-- Cell of a tabular dataset: `none` is a null (pandas NaN), `some s` a value. -/
abbrev Cell := Option String

/-- Tabular Dataset: ordered column names and ordered rows of cells
(`pd.DataFrame` as materialised from a staged CSV file). -/
structure DataFrame where
  cols : List String
  rows : List (List Cell)
deriving DecidableEq, Repr

/-- Row projection performed by `df.drop(columns=list(drop_cols), errors='ignore')`
(line 52): keep exactly the cells whose column name is not in the drop list. -/
def projectRow (cols : List String) (cs : List String) (r : List Cell) : List Cell :=
  ((cols.zip r).filter (fun p => !cs.contains p.1)).map Prod.snd

/-- Embedding of `df.drop(columns=list(drop_cols), errors='ignore')` (line 52):
named columns that exist are removed, names that do not exist are ignored. -/
def DataFrame.dropColumns (df : DataFrame) (cs : List String) : DataFrame :=
  { cols := df.cols.filter (fun c => !cs.contains c),
    rows := df.rows.map (projectRow df.cols cs) }

/-- Embedding of `df.dropna()` (line 56): remove every row containing at
least one null in any column. -/
def DataFrame.dropna (df : DataFrame) : DataFrame :=
  { cols := df.cols,
    rows := df.rows.filter (fun r => r.all (fun c => c.isSome)) }

/-- Index of the first column with the given name, as pandas column lookup
`df['name']` resolves a label positionally. -/
def colIdx : List String → String → Option Nat
  | [], _ => none
  | c :: rest, name => if c == name then some 0 else (colIdx rest name).map (fun n => n + 1)

/-- Position of the `department` column used by `df['department']` (line 60);
`none` means the lookup raises `KeyError`. -/
def DataFrame.deptIdx (df : DataFrame) : Option Nat :=
  colIdx df.cols "department"

/-- Embedding of `df[df['department'] == filter_dept]` (line 60) once the
column index `i` is resolved: keep rows whose cell at `i` equals the value
exactly; a null cell never matches (pandas `NaN == v` is `False`). -/
def DataFrame.filterRowsDept (df : DataFrame) (i : Nat) (v : String) : DataFrame :=
  { cols := df.cols,
    rows := df.rows.filter (fun r => r.getD i none == some v) }

/-- Python truthiness of the `--filter-dept` option value: `None` (absent)
and the empty string are falsy, any other string is truthy (line 59). -/
def truthyStr : Option String → Bool
  | none => false
  | some s => !(s == "")

/-- User-visible messages (`click.echo`) that the transform and validate
commands can emit, kept as structured values rather than rendered text. -/
inductive Msg where
  | droppedColumns (cs : List String)
  | droppedNulls
  | filteredByDept (v : String)
  | nullFound
  | dupFound
  | passed
deriving DecidableEq, Repr

/-- Discriminator for the dropped-columns message (line 53). -/
def Msg.isDropColsMsg : Msg → Bool
  | Msg.droppedColumns _ => true
  | _ => false

/-- Discriminator for the department-filter message (line 61). -/
def Msg.isFilterMsg : Msg → Bool
  | Msg.filteredByDept _ => true
  | _ => false

/-- Error taxonomy of the commands: an uncaught Python exception. -/
inductive ETLError where
  | keyError (col : String)
  | ioError (path : String)
deriving DecidableEq, Repr

/-- Stage 1 of transform (lines 51-53): `if drop_cols:` is Python truthiness
of the tuple, so the drop and its message happen exactly when the list is
non-empty. -/
def stageDropCols (df : DataFrame) (cs : List String) : DataFrame × List Msg :=
  if cs.isEmpty then (df, []) else (df.dropColumns cs, [Msg.droppedColumns cs])

/-- Stage 2 of transform (lines 55-57): `if drop_null:`. -/
def stageDropNull (df : DataFrame) (dn : Bool) : DataFrame × List Msg :=
  if dn then (df.dropna, [Msg.droppedNulls]) else (df, [])

/-- Stage 3 of transform (lines 59-61): `if filter_dept:` is string
truthiness; the lookup `df['department']` raises `KeyError` when the column
is absent, before the echo on line 61. -/
def stageFilterDept (df : DataFrame) (fd : Option String) : Except ETLError (DataFrame × List Msg) :=
  if truthyStr fd then
    match df.deptIdx with
    | some i => Except.ok (df.filterRowsDept i (fd.getD ""), [Msg.filteredByDept (fd.getD "")])
    | none => Except.error (ETLError.keyError "department")
  else Except.ok (df, [])

/-- Embedding of the body of `transform` (lines 49-63) on an already-loaded
dataset: the three optional filters in source order, accumulating the echoed
messages; on `KeyError` the messages already echoed are kept and the result
dataset is absent (the process crashes before `to_csv` on line 63). -/
def transformDF (df : DataFrame) (dn : Bool) (cs : List String) (fd : Option String) :
    List Msg × Except ETLError DataFrame :=
  match stageFilterDept (stageDropNull (stageDropCols df cs).1 dn).1 fd with
  | Except.ok (df3, m3) =>
    ((stageDropCols df cs).2 ++ (stageDropNull (stageDropCols df cs).1 dn).2 ++ m3, Except.ok df3)
  | Except.error e =>
    ((stageDropCols df cs).2 ++ (stageDropNull (stageDropCols df cs).1 dn).2, Except.error e)

/-- Decidable equality for command results, so that concrete runs can be
checked by evaluation. -/
instance exceptDecEq {ε α : Type} [DecidableEq ε] [DecidableEq α] :
    DecidableEq (Except ε α) := fun a b =>
  match a, b with
  | Except.ok x, Except.ok y =>
    if h : x = y then isTrue (by rw [h]) else isFalse (by intro hc; cases hc; exact h rfl)
  | Except.error x, Except.error y =>
    if h : x = y then isTrue (by rw [h]) else isFalse (by intro hc; cases hc; exact h rfl)
  | Except.ok _, Except.error _ => isFalse (by intro hc; cases hc)
  | Except.error _, Except.ok _ => isFalse (by intro hc; cases hc)

/-- File system holding the staged files, keyed by path; the head of the
list is the most recent write. -/
abbrev FS : Type := List (String × DataFrame)

/-- Read a staged file (`pd.read_csv`); `none` means the file is missing. -/
def FS.read (fs : FS) (p : String) : Option DataFrame :=
  List.lookup p fs

/-- Write a staged file (`df.to_csv(path, index=False)`), unconditionally
overwriting prior content. -/
def FS.write (fs : FS) (p : String) (df : DataFrame) : FS :=
  (p, df) :: fs

/-- Embedding of the `transform` command (lines 46-64): read the input path,
run the filters, and write `transformed_sql.csv` only on success; a missing
input file is an `IOError` and a failed department lookup a `KeyError`,
either of which aborts before the write. -/
def transform (fs : FS) (inputPath : String) (dn : Bool) (cs : List String)
    (fd : Option String) : List Msg × Except ETLError FS :=
  match FS.read fs inputPath with
  | none => ([], Except.error (ETLError.ioError inputPath))
  | some df =>
    match transformDF df dn cs fd with
    | (msgs, Except.ok df3) => (msgs, Except.ok (FS.write fs "transformed_sql.csv" df3))
    | (msgs, Except.error e) => (msgs, Except.error e)

/-- Disk state after a `transform` invocation: on a crash the process exits
with the disk unchanged. -/
def runTransform (fs : FS) (inputPath : String) (dn : Bool) (cs : List String)
    (fd : Option String) : FS :=
  match (transform fs inputPath dn cs fd).2 with
  | Except.ok fs2 => fs2
  | Except.error _ => fs

/-- Embedding of the `load` command (lines 69-74): read
`transformed_sql.csv` and write the same dataset to the target path;
a missing transformed file raises before any write. -/
def load (fs : FS) (target : String) : Except ETLError FS :=
  match FS.read fs "transformed_sql.csv" with
  | none => Except.error (ETLError.ioError "transformed_sql.csv")
  | some df => Except.ok (FS.write fs target df)

/-- Textual encoding of one cell as it appears in a staged CSV file
(`to_csv` writes nulls as the empty field). -/
def cellStr : Cell → String
  | none => ""
  | some s => s

/-- Byte content of a staged file produced by `df.to_csv(path, index=False)`:
header row of column names then one comma-separated line per row. -/
def serializeCsv (df : DataFrame) : String :=
  String.intercalate "\n"
    (String.intercalate "," df.cols :: df.rows.map (fun r => String.intercalate "," (r.map cellStr)))
    ++ "\n"

/-- Embedding of `df.isnull().values.any()` (line 94). -/
def DataFrame.hasNull (df : DataFrame) : Bool :=
  df.rows.any (fun r => r.any (fun c => c.isNone))

/-- Helper for `df.duplicated()`: a row is flagged when it equals a row seen
earlier; the whole check is whether any row is flagged. -/
def hasDupAux (seen : List (List Cell)) : List (List Cell) → Bool
  | [] => false
  | r :: rest => seen.contains r || hasDupAux (r :: seen) rest

/-- Embedding of `df.duplicated().any()` (line 96). -/
def DataFrame.hasDup (df : DataFrame) : Bool :=
  hasDupAux [] df.rows

/-- Embedding of the body of `validate` (lines 93-103): both checks always
run, each triggered one appends its message, and an empty issue list yields
the single success message. -/
def validate (df : DataFrame) : List Msg :=
  let issues := (if df.hasNull then [Msg.nullFound] else [])
    ++ (if df.hasDup then [Msg.dupFound] else [])
  if issues.isEmpty then [Msg.passed] else issues

/-- Observable resource events of the `extract` command (lines 31-36). -/
inductive ExEvent where
  | connOpen
  | queryRun
  | connClose
  | fileWrite
deriving DecidableEq, Repr

/-- Event trace of `extract` (lines 31-36) as straight-line code: `connect`,
then `pd.read_sql`, then `conn.close()`, then `to_csv`; there is no
`try/finally`, so when the query raises, execution stops at the query and
`conn.close()` is never reached. -/
def extract (queryOk : Bool) : List ExEvent :=
  if queryOk then [ExEvent.connOpen, ExEvent.queryRun, ExEvent.connClose, ExEvent.fileWrite]
  else [ExEvent.connOpen, ExEvent.queryRun]

/-- Well-formed dataset: every row has one cell per column. -/
def DataFrame.Wf (df : DataFrame) : Prop :=
  ∀ r ∈ df.rows, r.length = df.cols.length

/-- Well-formedness is checkable on concrete datasets. -/
instance (df : DataFrame) : Decidable df.Wf := by
  unfold DataFrame.Wf
  infer_instance

/-- Scenario dataset from the spec: columns `[id, department, salary]`,
rows `(1,"Eng",100), (2,"Eng",null), (2,"Eng",null)`. -/
def sampleDf3 : DataFrame :=
  { cols := ["id", "department", "salary"],
    rows := [[some "1", some "Eng", some "100"],
             [some "2", some "Eng", none],
             [some "2", some "Eng", none]] }

/-- Result of `transform --drop-null --filter-dept Eng` on `sampleDf3`. -/
def sampleOut3 : DataFrame :=
  { cols := ["id", "department", "salary"],
    rows := [[some "1", some "Eng", some "100"]] }

/-- One-column dataset with a single non-null row. -/
def sampleDf1 : DataFrame :=
  { cols := ["id"], rows := [[some "1"]] }

/-- Dataset with no department column. -/
def sampleNoDept : DataFrame :=
  { cols := ["id", "salary"], rows := [[some "1", some "100"]] }

/-- Result of dropping `salary` (and the absent `ghost`) from `sampleDf3`. -/
def sampleDropped : DataFrame :=
  { cols := ["id", "department"],
    rows := [[some "1", some "Eng"],
             [some "2", some "Eng"],
             [some "2", some "Eng"]] }

/-- Disk holding one transformed staged file. -/
def fs0 : FS := [("transformed_sql.csv", sampleDf1)]

/-- Disk holding one extracted staged file whose dataset has no department
column. -/
def fsND : FS := [("extracted_sql.csv", sampleNoDept)]

/-! ## Helper lemmas about the individual transform stages -/

theorem projectRow_nil (cols : List String) (r : List Cell) (h : r.length = cols.length) :
    projectRow cols [] r = r := by
  unfold projectRow
  have h1 : (cols.zip r).filter (fun p => !(([] : List String).contains p.1)) = cols.zip r := by
    simp
  rw [h1]
  exact List.map_snd_zip cols r (le_of_eq h)

theorem stageDropCols_cols (df : DataFrame) (cs : List String) :
    (stageDropCols df cs).1.cols = df.cols.filter (fun c => !cs.contains c) := by
  cases cs with
  | nil => simp [stageDropCols]
  | cons a l => simp [stageDropCols, DataFrame.dropColumns]

theorem stageDropCols_rows (df : DataFrame) (cs : List String) (hwf : df.Wf) :
    (stageDropCols df cs).1.rows = df.rows.map (projectRow df.cols cs) := by
  cases cs with
  | nil =>
    simp only [stageDropCols, List.isEmpty_nil, if_true]
    have : ∀ r ∈ df.rows, projectRow df.cols [] r = r := fun r hr =>
      projectRow_nil df.cols r (hwf r hr)
    rw [List.map_congr_left this]
    simp
  | cons a l => rfl

theorem stageDropNull_cols (df : DataFrame) (dn : Bool) :
    (stageDropNull df dn).1.cols = df.cols := by
  cases dn <;> rfl

theorem stageDropNull_deptIdx (df : DataFrame) (dn : Bool) :
    (stageDropNull df dn).1.deptIdx = df.deptIdx := by
  cases dn <;> rfl

theorem stageDropNull_rows_sublist (df : DataFrame) (dn : Bool) :
    (stageDropNull df dn).1.rows.Sublist df.rows := by
  cases dn
  · exact List.Sublist.refl _
  · exact List.filter_sublist df.rows

theorem stageFilterDept_ok_shape (df : DataFrame) (fd : Option String) (df3 : DataFrame)
    (m : List Msg) (h : stageFilterDept df fd = Except.ok (df3, m)) :
    df3.cols = df.cols ∧ df3.rows.Sublist df.rows := by
  unfold stageFilterDept at h
  by_cases ht : truthyStr fd = true
  · rw [if_pos ht] at h
    cases hidx : df.deptIdx with
    | none => rw [hidx] at h; cases h
    | some i =>
      rw [hidx] at h
      cases h
      exact ⟨rfl, List.filter_sublist df.rows⟩
  · rw [if_neg ht] at h
    cases h
    exact ⟨rfl, List.Sublist.refl _⟩

theorem stageFilterDept_ok_msgs (df : DataFrame) (fd : Option String) (df3 : DataFrame)
    (m : List Msg) (h : stageFilterDept df fd = Except.ok (df3, m)) :
    m.any Msg.isFilterMsg = truthyStr fd ∧ m.any Msg.isDropColsMsg = false := by
  unfold stageFilterDept at h
  by_cases ht : truthyStr fd = true
  · rw [if_pos ht] at h
    cases hidx : df.deptIdx with
    | none => rw [hidx] at h; cases h
    | some i =>
      rw [hidx] at h
      cases h
      simp [Msg.isFilterMsg, Msg.isDropColsMsg, ht]
  · rw [if_neg ht] at h
    cases h
    simp [Bool.not_eq_true] at ht
    simp [ht]

theorem stageFilterDept_empty (df : DataFrame) :
    stageFilterDept df (some "") = Except.ok (df, []) := by
  have hts : truthyStr (some "") = false := by decide
  unfold stageFilterDept
  rw [hts]
  rfl

theorem colIdx_eq_none (l : List String) (name : String) (h : name ∉ l) :
    colIdx l name = none := by
  induction l with
  | nil => rfl
  | cons a t ih =>
    simp only [List.mem_cons, not_or] at h
    have h1 : (a == name) = false := by
      simp only [beq_eq_false_iff_ne, ne_eq]
      exact fun e => h.1 (e.symm)
    rw [colIdx, h1, if_neg (by simp), ih h.2]
    rfl

theorem stageDropCols_msgs_dropcols (df : DataFrame) (cs : List String) :
    (stageDropCols df cs).2.any Msg.isDropColsMsg = !cs.isEmpty := by
  cases cs <;> simp [stageDropCols, Msg.isDropColsMsg]

theorem stageDropCols_msgs_filter (df : DataFrame) (cs : List String) :
    (stageDropCols df cs).2.any Msg.isFilterMsg = false := by
  cases cs <;> simp [stageDropCols, Msg.isFilterMsg]

theorem stageDropNull_msgs_dropcols (df : DataFrame) (dn : Bool) :
    (stageDropNull df dn).2.any Msg.isDropColsMsg = false := by
  cases dn <;> simp [stageDropNull, Msg.isDropColsMsg]

theorem stageDropNull_msgs_filter (df : DataFrame) (dn : Bool) :
    (stageDropNull df dn).2.any Msg.isFilterMsg = false := by
  cases dn <;> simp [stageDropNull, Msg.isFilterMsg]

/-! ## Claim theorems -/

/-- C1: transform applies its three optional filters in the fixed order drop
columns, then drop null rows, then the department equality filter: with the
drop-null flag set, the equality filter runs on the already null-filtered
rows (first conjunct), and in particular no row containing a null in any
column survives to the output, regardless of whether it would pass the
equality filter (second conjunct). -/
theorem transform_applies_filters_in_order (df : DataFrame) (cs : List String) (v : String)
    (i : Nat) (msgs : List Msg) (res : DataFrame)
    (hv : truthyStr (some v) = true)
    (hi : (stageDropCols df cs).1.deptIdx = some i)
    (h : transformDF df true cs (some v) = (msgs, Except.ok res)) :
    res.rows
      = ((stageDropCols df cs).1.dropna).rows.filter (fun r => r.getD i none == some v)
    ∧ ∀ r ∈ res.rows, r.all (fun c => c.isSome) = true := by
  have hidx2 : (stageDropNull (stageDropCols df cs).1 true).1.deptIdx = some i := by
    rw [stageDropNull_deptIdx]
    exact hi
  have hsf : stageFilterDept (stageDropNull (stageDropCols df cs).1 true).1 (some v)
      = Except.ok ((stageDropNull (stageDropCols df cs).1 true).1.filterRowsDept i v,
                   [Msg.filteredByDept v]) := by
    unfold stageFilterDept
    rw [if_pos hv, hidx2]
    rfl
  unfold transformDF at h
  rw [hsf] at h
  injection h with h1 h2
  injection h2 with h3
  subst h3
  constructor
  · rfl
  · intro r hr
    have hr2 := List.mem_filter.mp hr
    have hr3 := List.mem_filter.mp hr2.1
    exact hr3.2

/-- C2: for every transformed staged file F on disk, the load operation
succeeds and writes at the target path content identical to F, hence with
byte-for-byte identical serialization. -/
theorem load_roundtrip (fs : FS) (t : String) (F : DataFrame)
    (h : FS.read fs "transformed_sql.csv" = some F) :
    ∃ fs2, load fs t = Except.ok fs2 ∧ FS.read fs2 t = some F
      ∧ (FS.read fs2 t).map serializeCsv = some (serializeCsv F) := by
  refine ⟨FS.write fs t F, ?_, ?_, ?_⟩
  · unfold load
    rw [h]
  · simp [FS.read, FS.write, List.lookup]
  · simp [FS.read, FS.write, List.lookup]

/-- C3: when the input dataset has no department column and a (truthy)
department filter is given, transform fails with a KeyError and the disk,
in particular the transformed slot, is left unchanged. -/
theorem transform_missing_dept_keyerror (fs : FS) (p : String) (df : DataFrame)
    (dn : Bool) (cs : List String) (v : String)
    (hread : FS.read fs p = some df)
    (hnod : "department" ∉ df.cols)
    (hv : truthyStr (some v) = true) :
    (transform fs p dn cs (some v)).2 = Except.error (ETLError.keyError "department")
    ∧ runTransform fs p dn cs (some v) = fs := by
  have hnod1 : "department" ∉ (stageDropCols df cs).1.cols := by
    rw [stageDropCols_cols]
    intro hmem
    exact hnod (List.mem_of_mem_filter hmem)
  have hidx : (stageDropNull (stageDropCols df cs).1 dn).1.deptIdx = none := by
    rw [stageDropNull_deptIdx]
    exact colIdx_eq_none _ _ hnod1
  have hsf : stageFilterDept (stageDropNull (stageDropCols df cs).1 dn).1 (some v)
      = Except.error (ETLError.keyError "department") := by
    unfold stageFilterDept
    rw [if_pos hv, hidx]
  have hpair : transformDF df dn cs (some v)
      = ((stageDropCols df cs).2 ++ (stageDropNull (stageDropCols df cs).1 dn).2,
         Except.error (ETLError.keyError "department")) := by
    unfold transformDF
    rw [hsf]
  have h1 : (transform fs p dn cs (some v)).2
      = Except.error (ETLError.keyError "department") := by
    unfold transform
    simp only [hread, hpair]
  refine ⟨h1, ?_⟩
  unfold runTransform
  rw [h1]

/-- C4: whenever transform succeeds, the output column set equals the input
column set minus exactly those drop-cols names that existed in the input,
and in particular is a subset of the input column set. -/
theorem transform_column_subset (df : DataFrame) (dn : Bool) (cs : List String)
    (fd : Option String) (msgs : List Msg) (res : DataFrame)
    (h : transformDF df dn cs fd = (msgs, Except.ok res)) :
    res.cols = df.cols.filter (fun c => !cs.contains c) ∧ res.cols ⊆ df.cols := by
  unfold transformDF at h
  cases hsf : stageFilterDept (stageDropNull (stageDropCols df cs).1 dn).1 fd with
  | error e =>
    rw [hsf] at h
    injection h with h1 h2
    cases h2
  | ok p =>
    obtain ⟨df3, m3⟩ := p
    rw [hsf] at h
    injection h with h1 h2
    injection h2 with h3
    subst h3
    have hc := (stageFilterDept_ok_shape _ _ _ _ hsf).1
    rw [hc, stageDropNull_cols, stageDropCols_cols]
    exact ⟨rfl, List.filter_subset' df.cols⟩

/-- C5: for a non-empty drop-cols list and no department filter, transform
always succeeds — names that are not columns are silently ignored — and the
output columns are the input columns minus exactly the named ones that
existed. -/
theorem transform_ignores_missing_dropcols (df : DataFrame) (dn : Bool) (cs : List String)
    (_hcs : cs ≠ []) :
    ∃ msgs res, transformDF df dn cs none = (msgs, Except.ok res)
      ∧ res.cols = df.cols.filter (fun c => !cs.contains c) := by
  refine ⟨(stageDropCols df cs).2 ++ (stageDropNull (stageDropCols df cs).1 dn).2 ++ [],
    (stageDropNull (stageDropCols df cs).1 dn).1, ?_, ?_⟩
  · unfold transformDF
    rfl
  · rw [stageDropNull_cols, stageDropCols_cols]

/-- C6: validate runs both the null check and the duplicate check: a dataset
with both a null and a duplicate row yields both distinct issue messages,
and a dataset with neither yields exactly the single success message. -/
theorem validate_runs_both_checks (df : DataFrame) :
    (df.hasNull = true → df.hasDup = true → validate df = [Msg.nullFound, Msg.dupFound])
    ∧ (df.hasNull = false → df.hasDup = false → validate df = [Msg.passed]) := by
  constructor
  · intro h1 h2
    simp [validate, h1, h2]
  · intro h1 h2
    simp [validate, h1, h2]

/-- C7 counterexample: on a run where the query fails, the connection was
opened but `conn.close()` is never reached — lines 31-34 have no
`try/finally`, so the exception from `pd.read_sql` propagates past the
close call. -/
theorem extract_close_skipped_on_failure :
    ExEvent.connOpen ∈ extract false ∧ ExEvent.connClose ∉ extract false := by
  decide

/-- C7 amended: the connection opened by extract is closed exactly on the
success path; when the query fails the process aborts without closing it. -/
theorem extract_closes_conn_iff_success (q : Bool) :
    ExEvent.connClose ∈ extract q ↔ q = true := by
  cases q <;> decide

/-- C8 counterexample: invoking transform with the department-filter option
supplied as the empty string emits no department-filter message (here no
message at all), refuting that supplying an option always makes its message
appear. -/
theorem transform_empty_dept_message_cex :
    transformDF sampleDf1 false [] (some "") = ([], Except.ok sampleDf1) := by
  rfl

/-- C8 amended: the dropped-columns message is emitted iff the drop-cols
option was supplied (non-empty list), in every run; and in every run that
completes successfully the department-filter message is emitted iff the
option was supplied with a truthy (non-empty) value. -/
theorem transform_messages_iff_options (df : DataFrame) (dn : Bool) (cs : List String)
    (fd : Option String) :
    (transformDF df dn cs fd).1.any Msg.isDropColsMsg = !cs.isEmpty
    ∧ (∀ res, (transformDF df dn cs fd).2 = Except.ok res →
        (transformDF df dn cs fd).1.any Msg.isFilterMsg = truthyStr fd) := by
  cases hsf : stageFilterDept (stageDropNull (stageDropCols df cs).1 dn).1 fd with
  | ok p =>
    obtain ⟨df3, m3⟩ := p
    have hm := stageFilterDept_ok_msgs _ _ _ _ hsf
    constructor
    · unfold transformDF
      rw [hsf]
      simp [List.any_append, stageDropCols_msgs_dropcols, stageDropNull_msgs_dropcols, hm.2]
    · intro res hres
      unfold transformDF
      rw [hsf]
      simp [List.any_append, stageDropCols_msgs_filter, stageDropNull_msgs_filter, hm.1]
  | error e =>
    constructor
    · unfold transformDF
      rw [hsf]
      simp [List.any_append, stageDropCols_msgs_dropcols, stageDropNull_msgs_dropcols]
    · intro res hres
      unfold transformDF at hres
      rw [hsf] at hres
      simp at hres

/-- C9: supplying the department filter as the empty string behaves exactly
as if the option were absent — the whole run is equal to the run with no
filter option, it always succeeds with the rows of stage 2 untouched (so no
rows are filtered and no missing-column error can arise), and no filter
message is emitted. -/
theorem transform_empty_dept_like_absent (df : DataFrame) (dn : Bool) (cs : List String) :
    transformDF df dn cs (some "") = transformDF df dn cs none
    ∧ (transformDF df dn cs (some "")).2
        = Except.ok (stageDropNull (stageDropCols df cs).1 dn).1
    ∧ (transformDF df dn cs (some "")).1.any Msg.isFilterMsg = false := by
  have he := stageFilterDept_empty (stageDropNull (stageDropCols df cs).1 dn).1
  refine ⟨?_, ?_, ?_⟩
  · unfold transformDF
    rw [he]
    rfl
  · unfold transformDF
    rw [he]
  · unfold transformDF
    rw [he]
    simp [List.any_append, stageDropCols_msgs_filter, stageDropNull_msgs_filter]

/-- C10: whenever transform succeeds on a well-formed dataset, the output
rows are a sublist of the input rows each restricted to the surviving
columns: no cell of a surviving row is altered and the relative row order
is preserved. -/
theorem transform_row_provenance (df : DataFrame) (dn : Bool) (cs : List String)
    (fd : Option String) (msgs : List Msg) (res : DataFrame)
    (hwf : df.Wf)
    (h : transformDF df dn cs fd = (msgs, Except.ok res)) :
    res.rows.Sublist (df.rows.map (projectRow df.cols cs)) := by
  unfold transformDF at h
  cases hsf : stageFilterDept (stageDropNull (stageDropCols df cs).1 dn).1 fd with
  | error e =>
    rw [hsf] at h
    injection h with h1 h2
    cases h2
  | ok p =>
    obtain ⟨df3, m3⟩ := p
    rw [hsf] at h
    injection h with h1 h2
    injection h2 with h3
    subst h3
    have s3 := (stageFilterDept_ok_shape _ _ _ _ hsf).2
    have s2 := stageDropNull_rows_sublist (stageDropCols df cs).1 dn
    have s1 := stageDropCols_rows df cs hwf
    have hchain := s3.trans s2
    rw [s1] at hchain
    exact hchain

/-! ## Witnesses: each hypothesis-bearing claim theorem applied at a
concrete run -/

/-- Witness for C1 on the spec scenario dataset: `--drop-null
--filter-dept Eng` keeps exactly the one fully non-null `Eng` row. -/
theorem transform_applies_filters_in_order_witness :
    sampleOut3.rows
      = ((stageDropCols sampleDf3 []).1.dropna).rows.filter
          (fun r => r.getD 1 none == some "Eng")
    ∧ ∀ r ∈ sampleOut3.rows, r.all (fun c => c.isSome) = true :=
  transform_applies_filters_in_order sampleDf3 [] "Eng" 1
    [Msg.droppedNulls, Msg.filteredByDept "Eng"] sampleOut3
    (by decide) (by decide) (by decide)

/-- Witness for C2: loading from a disk holding a transformed staged file
writes identical content (and identical bytes) at the default target. -/
theorem load_roundtrip_witness :
    ∃ fs2, load fs0 "loaded_sql.csv" = Except.ok fs2
      ∧ FS.read fs2 "loaded_sql.csv" = some sampleDf1
      ∧ (FS.read fs2 "loaded_sql.csv").map serializeCsv = some (serializeCsv sampleDf1) :=
  load_roundtrip fs0 "loaded_sql.csv" sampleDf1 (by decide)

/-- Witness for C3: `transform --filter-dept Eng` on an extracted file with
no department column fails with the KeyError and leaves the disk as it was. -/
theorem transform_missing_dept_keyerror_witness :
    (transform fsND "extracted_sql.csv" false [] (some "Eng")).2
        = Except.error (ETLError.keyError "department")
    ∧ runTransform fsND "extracted_sql.csv" false [] (some "Eng") = fsND :=
  transform_missing_dept_keyerror fsND "extracted_sql.csv" sampleNoDept false [] "Eng"
    (by decide) (by decide) (by decide)

/-- Witness for C4: dropping `salary` and the absent `ghost` leaves the
columns `[id, department]`, a subset of the input columns. -/
theorem transform_column_subset_witness :
    sampleDropped.cols = sampleDf3.cols.filter (fun c => !(["salary", "ghost"].contains c))
    ∧ sampleDropped.cols ⊆ sampleDf3.cols :=
  transform_column_subset sampleDf3 false ["salary", "ghost"] none
    [Msg.droppedColumns ["salary", "ghost"]] sampleDropped (by decide)

/-- Witness for C5: the spec scenario `--drop-cols salary --drop-cols ghost`
succeeds with output columns `[id, department]` and no error for `ghost`. -/
theorem transform_ignores_missing_dropcols_witness :
    ∃ msgs res, transformDF sampleDf3 false ["salary", "ghost"] none = (msgs, Except.ok res)
      ∧ res.cols = sampleDf3.cols.filter (fun c => !(["salary", "ghost"].contains c)) :=
  transform_ignores_missing_dropcols sampleDf3 false ["salary", "ghost"] (by decide)

/-- Witness for C6: the scenario dataset with a null and a duplicate row
reports both issues; the clean one-row dataset reports the single success
message. -/
theorem validate_runs_both_checks_witness :
    validate sampleDf3 = [Msg.nullFound, Msg.dupFound]
    ∧ validate sampleDf1 = [Msg.passed] :=
  ⟨(validate_runs_both_checks sampleDf3).1 (by decide) (by decide),
   (validate_runs_both_checks sampleDf1).2 (by decide) (by decide)⟩

/-- Witness for the amended C8 on a successful run with both options truthy:
both messages appear. -/
theorem transform_messages_iff_options_witness :
    (transformDF sampleDf3 true ["salary"] (some "Eng")).1.any Msg.isDropColsMsg
      = !(["salary"] : List String).isEmpty
    ∧ (transformDF sampleDf3 true ["salary"] (some "Eng")).1.any Msg.isFilterMsg
      = truthyStr (some "Eng") :=
  ⟨(transform_messages_iff_options sampleDf3 true ["salary"] (some "Eng")).1,
   (transform_messages_iff_options sampleDf3 true ["salary"] (some "Eng")).2
     sampleDropped (by decide)⟩

/-- Witness for C10 on the spec scenario run: the surviving row is one of
the input rows (projection over an empty drop list), in input order. -/
theorem transform_row_provenance_witness :
    sampleOut3.rows.Sublist (sampleDf3.rows.map (projectRow sampleDf3.cols [])) :=
  transform_row_provenance sampleDf3 true [] (some "Eng")
    [Msg.droppedNulls, Msg.filteredByDept "Eng"] sampleOut3 (by decide) (by decide)
